import Mathlib

/-!
Shallow embedding of the OpenLLM bundling module
(`openllm-python/src/openllm/bundle/_package.py`) and of the falcon
lazy-import structure (`src/openllm/models/falcon/__init__.py`),
together with theorems settling the frozen claims about them.

Python dictionaries are modelled as association lists with dict update
semantics (insertion order preserved, assignment replaces in place).
Python strings are Lean strings; a Python float that is only ever
rendered with `str` (gpu_memory_utilization) is modelled by its rendered
decimal string.
-/

namespace OpenLLM

/-- Association-list model of a Python `dict[str, str]`. -/
abbrev Dict := List (String × String)

/-- Lookup of a key, first match wins (Python dicts have unique keys). -/
def dget (k : String) : Dict → Option String
  | [] => none
  | kv :: rest => if kv.1 = k then some kv.2 else dget k rest

/-- Python `d[k] = v`: replace in place if the key exists, else append. -/
def dictSet (k v : String) : Dict → Dict
  | [] => [(k, v)]
  | kv :: rest => if kv.1 = k then (k, v) :: rest else kv :: dictSet k v rest

/-- Python `d.pop(k, None)`: drop the entry for `k`, keep the rest. -/
def dictPop (k : String) : Dict → Dict
  | [] => []
  | kv :: rest => if kv.1 = k then dictPop k rest else kv :: dictPop k rest

/-- Python `d.update(kvs)`: assign each pair of `kvs` in order. -/
def dictUpdate (d : Dict) (kvs : Dict) : Dict :=
  kvs.foldl (fun acc kv => dictSet kv.1 kv.2 acc) d

/-- Python truthiness of an `Optional[str]`: `None` and the empty string are falsy. -/
def pyTruthyOptStr : Option String → Bool
  | none => false
  | some s => !(s == "")

/-- Python truthiness of an `Optional[dict]`: `None` and the empty dict are falsy. -/
def pyTruthyOptDict : Option Dict → Bool
  | none => false
  | some m => !m.isEmpty

/-- Python `str` on a bool: `True` / `False`. -/
def pyStrBool (b : Bool) : String := if b then "True" else "False"

/-- Python `str` on an `Optional[int]`: `None` or the decimal rendering. -/
def pyReprOptInt : Option Int → String
  | none => "None"
  | some n => toString n

/-- JSON string escaping as performed by `orjson.dumps` on plain strings
(backslash and double quote; other characters of the inputs we consider
pass through unchanged). -/
def jsonEscapeChar (c : Char) : List Char :=
  if c = '\\' then ['\\', '\\'] else if c = '"' then ['\\', '"'] else [c]

/-- Escape a string for embedding in a JSON document. -/
def jsonEscape (s : String) : String := ⟨(s.data.map jsonEscapeChar).flatten⟩

/-- Model of `orjson.dumps` on an `Optional[dict[str, str]]`, decoded to text:
`None` serialises to `null`, a dict to a compact JSON object. -/
def jsonDumps : Option Dict → String
  | none => "null"
  | some m =>
    "\x7b" ++ String.intercalate ","
      (m.map (fun kv => "\"" ++ jsonEscape kv.1 ++ "\":\"" ++ jsonEscape kv.2 ++ "\"")) ++ "\x7d"

/-- Model of `pathlib.Path(s).parent`: drop the last `/`-separated component. -/
def parentDir (s : String) : String :=
  String.intercalate "/" ((s.splitOn "/").dropLast)

/-- Last `/`-separated component of a path (Python `s.split(chr(47))[-1]`). -/
def lastComponent (s : String) : String := ((s.splitOn "/").getLastD "")

/-- Modelled from the spec: `check_bool_env` (from `openllm_core.utils`, whose
source is not part of this fragment) reads an environment variable and
interprets it as a boolean development-mode flag, falling back to the
default when the variable is not set. -/
def check_bool_env (envVars : String → Option String) (name : String) (default : Bool) : Bool :=
  match envVars name with
  | none => default
  | some v => (["true", "True", "TRUE", "1", "yes", "Yes", "YES", "on", "On", "ON"]).contains v

/-- Name of the development-mode environment flag. -/
def OPENLLM_DEV_BUILD : String := "OPENLLM_DEV_BUILD"

/-- The ambient effects `build_editable` depends on: the process environment,
`pkg.source_locations`, `os.path.isfile`, and the external wheel builder
(`ProjectBuilder.build`, mapping project directory and output directory to
the path of the built wheel). -/
structure Env where
  envVars : String → Option String
  srcLoc : String → Option String
  isFile : String → Bool
  buildWheel : String → String → String

/-- Error message raised when the package source location cannot be resolved. -/
def srcLocError : String := "Could not find the source location of OpenLLM."

/-- Error message raised when `pyproject.toml` is missing. -/
def pyprojectError : String := "Please install OpenLLM from PyPI or built it from Git source."

/-- Path of the build descriptor relative to a resolved module location:
`pathlib.Path(module_location).parent.parent / "pyproject.toml"`. -/
def pyprojectPathOf (moduleLocation : String) : String :=
  parentDir (parentDir moduleLocation) ++ "/pyproject.toml"

/-- Embedding of `build_editable(path, package)`. Returns `none` unless the
development-mode flag is set; otherwise resolves the source location
(`None` and the empty string are both falsy in the source guard), checks the
build descriptor, and either builds the wheel or raises. -/
def build_editable (env : Env) (path : String) (package : String := "openllm") :
    Except String (Option String) :=
  if check_bool_env env.envVars OPENLLM_DEV_BUILD false = false then .ok none
  else
    match env.srcLoc package with
    | none => .error srcLocError
    | some loc =>
      if loc = "" then .error srcLocError
      else
        let pyproject := pyprojectPathOf loc
        if env.isFile pyproject then .ok (some (env.buildWheel (parentDir pyproject) path))
        else .error pyprojectError

/-- The files `build_editable` writes under the caller-visible target path:
the built wheel when a build happens, nothing otherwise. -/
def build_editable_writes (env : Env) (path : String) (package : String := "openllm") :
    List String :=
  if check_bool_env env.envVars OPENLLM_DEV_BUILD false = false then []
  else
    match env.srcLoc package with
    | none => []
    | some loc =>
      if loc = "" then []
      else
        let pyproject := pyprojectPathOf loc
        if env.isFile pyproject then [env.buildWheel (parentDir pyproject) path] else []

/-- Applying a list of file writes to a directory listing. -/
def applyWrites (fs : List String) (writes : List String) : List String := fs ++ writes

/-- The slice of `llm.config` read by this module. -/
structure LLMConfig where
  serialisation : String
  start_name : String
  service_name : String
  requirements : Option (List String)

/-- The slice of the `llm` object read by this module. `tag` is `str(llm.tag)`
and `tagName` is `llm.tag.name`; `gpu_memory_utilization` is the decimal
rendering of the float, since the module only ever applies `str` to it. -/
structure LLM where
  model_id : String
  tag : String
  tagName : String
  llm_type : String
  backend : String
  trust_remote_code : Bool
  max_model_len : Option Int
  gpu_memory_utilization : String
  identifying_params : Dict
  config : LLMConfig

/-- Python single-quoting of a value interpolated as `chr(39) s chr(39)`
in the service-vars template. -/
def pyQuote (s : String) : String := "\x27" ++ s ++ "\x27"

/-- The fixed head of the `_SERVICE_VARS` template, up to the assignment sign. -/
def svHead : String :=
  "import orjson;model_id,model_tag,adapter_map,serialization,trust_remote_code,max_model_len,gpu_memory_utilization="

/-- The template text between the tag literal and the embedded JSON. -/
def svLoads : String := ",orjson.loads(\"\"\""

/-- The template text closing the embedded JSON. -/
def svLoadsEnd : String := "\"\"\"),"

/-- The `_SERVICE_VARS` template instantiated with the seven rendered values:
a single source line assigning the model id, tag, adapter map (via
`orjson.loads` of the embedded JSON), serialization mode, trust flag, max
model length and gpu memory utilization. -/
def serviceVarsLine (model_id model_tag adapter_json serialization trust max_len gpu : String) :
    String :=
  svHead ++ pyQuote model_id ++ "," ++ pyQuote model_tag
    ++ svLoads ++ adapter_json ++ svLoadsEnd ++ pyQuote serialization
    ++ "," ++ trust ++ "," ++ max_len ++ "," ++ gpu

/-- The two generated-header comment lines prepended to the service-vars file. -/
def scriptHeader (model_id : String) : String :=
  "# fmt: off\n# GENERATED BY \x27openllm build " ++ model_id ++ "\x27. DO NOT EDIT\n"

/-- The full text written to `_service_vars.py` by `create_bento`. -/
def createBentoScript (llm : LLM) (adapter_map : Option Dict) : String :=
  scriptHeader llm.model_id
    ++ serviceVarsLine llm.model_id llm.tag (jsonDumps adapter_map) llm.config.serialisation
        (pyStrBool llm.trust_remote_code) (pyReprOptInt llm.max_model_len)
        llm.gpu_memory_utilization

/-- Embedding of the `packages` list assembled by `construct_python_options`:
the three core requirements, then `openllm[fine-tune]` when an adapter map is
given (Python `is not None`), then one `openllm[k]` per extra dependency, then
the requirements of the model configuration. -/
def constructPythonPackages (releaseVersion : String) (requirements : Option (List String))
    (extra_dependencies : Option (List String)) (adapter_map : Option Dict) : List String :=
  ["scipy", "bentoml[tracing]>=1.1.11,<1.2", "openllm[vllm]>=" ++ releaseVersion]
    ++ (if adapter_map.isSome then ["openllm[fine-tune]"] else [])
    ++ (match extra_dependencies with
        | none => []
        | some ks => ks.map (fun k => "openllm[" ++ k ++ "]"))
    ++ requirements.getD []

/-- The `PythonOptions` value produced by `construct_python_options`. -/
structure PythonOptions where
  packages : List String
  wheels : Option (List String)
  lock_packages : Bool
deriving DecidableEq

/-- Embedding of `construct_python_options(llm, llm_fs, extra_dependencies,
adapter_map)`. `releaseVersion` stands for the externally fetched
`RefResolver.from_strategy` version and `llmFsRoot` for
`llm_fs.getsyspath` applied to the root. Wheels are listed only when all
three editable builds produced a truthy path (Python `all`). -/
def construct_python_options (env : Env) (releaseVersion : String) (llm : LLM)
    (llmFsRoot : String) (extra_dependencies : Option (List String))
    (adapter_map : Option Dict) : Except String PythonOptions :=
  let packages := constructPythonPackages releaseVersion llm.config.requirements
      extra_dependencies adapter_map
  match build_editable env llmFsRoot "openllm_core" with
  | .error e => .error e
  | .ok w1 =>
    match build_editable env llmFsRoot "openllm_client" with
    | .error e => .error e
    | .ok w2 =>
      match build_editable env llmFsRoot "openllm" with
      | .error e => .error e
      | .ok w3 =>
        let builtWheels := [w1, w2, w3]
        .ok
          { packages := packages
            wheels :=
              if builtWheels.all pyTruthyOptStr then
                some (builtWheels.map (fun i => llmFsRoot ++ "/" ++ lastComponent (i.getD "")))
              else none
            lock_packages := false }

/-- The `DockerOptions` value produced by `construct_docker_options`. -/
structure DockerOptions where
  python_version : String
  env : Dict
  dockerfile_template : Option String
deriving DecidableEq

/-- The environment transformation performed by `construct_docker_options` on
the mapping returned by `process_environ` (an `openllm_cli` function outside
this fragment, hence taken as the argument `environ`): quote the JSON config,
drop `BENTOML_HOME`, pin `NVIDIA_DRIVER_CAPABILITIES`. Reading the config key
raises `KeyError` when absent, modelled as `none`. -/
def constructDockerEnv (environ : Dict) : Option Dict :=
  match dget "OPENLLM_CONFIG" environ with
  | none => none
  | some cfg =>
    let e1 := dictSet "OPENLLM_CONFIG" (pyQuote cfg) environ
    let e2 := dictPop "BENTOML_HOME" e1
    some (dictSet "NVIDIA_DRIVER_CAPABILITIES" "compute,utility" e2)

/-- Embedding of `construct_docker_options`. The `serialisation` parameter is
accepted as in the source, which never reads it (the body passes
`llm._serialisation` to `process_environ` instead). -/
def construct_docker_options (environ : Dict) (dockerfile_template : Option String)
    (_serialisation : String) : Option DockerOptions :=
  (constructDockerEnv environ).map
    (fun e =>
      { python_version := "3.11", env := e, dockerfile_template := dockerfile_template })

/-- Embedding of `first_not_none(serialisation, default=...)`. -/
def firstNotNone (a : Option String) (default : String) : String := a.getD default

/-- The label pairs `create_bento` assigns over `dict(llm.identifying_params)`.
The three version stamps come from `importlib.metadata.version`, modelled by
the `versions` function; the set literal of the source iterates the three
package names in an unspecified order, which does not matter because the
three derived keys are distinct. -/
def createBentoLabelPairs (versions : String → String) (llm : LLM) : Dict :=
  [("_type", llm.llm_type), ("_framework", llm.backend),
   ("start_name", llm.config.start_name), ("base_name_or_path", llm.model_id),
   ("bundler", "openllm.bundle"),
   ("openllm_version", versions "openllm"),
   ("openllm_core_version", versions "openllm-core"),
   ("openllm_client_version", versions "openllm-client")]

/-- The labels dict built by `create_bento`: identifying params, updated with
the fixed pairs, then updated with the adapter map when it is truthy. -/
def createBentoLabels (versions : String → String) (llm : LLM) (adapter_map : Option Dict) :
    Dict :=
  let labels := dictUpdate llm.identifying_params (createBentoLabelPairs versions llm)
  if pyTruthyOptDict adapter_map then dictUpdate labels (adapter_map.getD []) else labels

/-- A bento tag (name and version). -/
structure BentoTag where
  name : String
  version : String

/-- Observable outcome of `create_bento`: the generated files and the build
configuration handed to the external bundler. `dockerSerialisationArg`
records the resolved serialisation value passed to
`construct_docker_options` at the call site. -/
structure CreateBentoResult where
  script : String
  serviceVarsFileName : String
  serviceFileName : String
  labels : Dict
  service : String
  name : String
  version : String
  description : String
  modelTag : String
  modelAlias : String
  exclude : List String
  python : PythonOptions
  docker : DockerOptions
  dockerSerialisationArg : String
deriving DecidableEq

/-- Embedding of `create_bento`. External collaborators appear as arguments:
`env` for the build-time effects, `environ` for the output of
`process_environ`, `releaseVersion` for the resolved release, `versions` for
installed package versions. Failures of the python-options construction and
the missing-config `KeyError` of the docker construction propagate, in the
evaluation order of the source. -/
def create_bento (env : Env) (environ : Dict) (releaseVersion : String)
    (versions : String → String) (bento_tag : BentoTag) (llmFsRoot : String) (llm : LLM)
    (dockerfile_template : Option String) (adapter_map : Option Dict)
    (extra_dependencies : Option (List String)) (serialisation : Option String) :
    Except String CreateBentoResult :=
  let _serialisation := firstNotNone serialisation llm.config.serialisation
  let labels := createBentoLabels versions llm adapter_map
  let script := createBentoScript llm adapter_map
  match construct_python_options env releaseVersion llm llmFsRoot extra_dependencies
      adapter_map with
  | .error e => .error e
  | .ok python =>
    match construct_docker_options environ dockerfile_template _serialisation with
    | none => .error "KeyError: OPENLLM_CONFIG"
    | some docker =>
      .ok
        { script := script
          serviceVarsFileName := "_service_vars.py"
          serviceFileName := llm.config.service_name
          labels := labels
          service := llm.config.service_name ++ ":svc"
          name := bento_tag.name
          version := bento_tag.version
          description := "OpenLLM service for " ++ llm.config.start_name
          modelTag := llm.tag
          modelAlias := llm.tagName
          exclude := ["/venv", "/.venv", "__pycache__/", "*.py[cod]", "*$py.class"]
          python := python
          docker := docker
          dockerSerialisationArg := _serialisation }

/-- The `_import_structure` of the falcon package: configuration entries
always, the modeling entry exactly when torch is available. -/
def falconImportStructure (torch_available : Bool) : List (String × List String) :=
  let base := [("configuration_falcon",
    ["FalconConfig", "START_FALCON_COMMAND_DOCSTRING", "DEFAULT_PROMPT_TEMPLATE"])]
  if torch_available then base ++ [("modeling_falcon", ["Falcon"])] else base

/-- Whether a lazy import structure exposes a given attribute name. -/
def exposesEntry (st : List (String × List String)) (entry : String) : Bool :=
  st.any (fun m => m.2.contains entry)

/-! Concrete fixtures used by witnesses and counterexamples. -/

/-- An environment with the development-mode flag unset and no resolvable
source locations. -/
def envNoDev : Env :=
  { envVars := fun _ => none
    srcLoc := fun _ => none
    isFile := fun _ => false
    buildWheel := fun _ p => p }

/-- An environment with the development-mode flag set and a resolvable source
tree containing a build descriptor. -/
def envDev : Env :=
  { envVars := fun n => if n = "OPENLLM_DEV_BUILD" then some "1" else none
    srcLoc := fun _ => some "/repo/src/openllm"
    isFile := fun _ => true
    buildWheel := fun _ p => p ++ "/openllm-0.4.41-py3-none-any.whl" }

/-- A concrete installed-version table. -/
def versionsEx : String → String := fun _ => "0.4.41"

/-- A concrete `process_environ` output containing the JSON config and the
home-directory variable. -/
def environEx : Dict :=
  [("OPENLLM_CONFIG", "\x7b\x7d"), ("BENTOML_HOME", "/root/bentoml"),
   ("OPENLLM_MODEL_ID", "facebook/opt-125m")]

/-- A concrete model object. -/
def llmEx : LLM :=
  { model_id := "facebook/opt-125m"
    tag := "vllm-facebook--opt-125m:abc123"
    tagName := "vllm-facebook--opt-125m"
    llm_type := "opt"
    backend := "vllm"
    trust_remote_code := false
    max_model_len := none
    gpu_memory_utilization := "0.9"
    identifying_params := [("configuration", "opt-config")]
    config :=
      { serialisation := "safetensors"
        start_name := "opt"
        service_name := "generated_opt_service.py"
        requirements := none } }

/-- A model object with the same bundle identity as `llmEx` but a different
type label and identifying parameters. -/
def llmEx2 : LLM :=
  { llmEx with llm_type := "opt-variant", identifying_params := [] }

/-! Predicates used to state the claims. -/

/-- A string contains no newline character. -/
def noNL (s : String) : Prop := '\n' ∉ s.data

instance (s : String) : Decidable (noNL s) := by unfold noNL; infer_instance

/-- A string `s` embeds `lit` verbatim as a contiguous run of characters. -/
def embedsLiteral (s lit : String) : Prop :=
  ∃ pre post : List Char, s.data = pre ++ lit.data ++ post

/-- Whether an `Except` value is a success. -/
def isOkB {ε α : Type} : Except ε α → Bool
  | .ok _ => true
  | .error _ => false

/-- Boolean prefix test on character lists. -/
def isPrefixListB : List Char → List Char → Bool
  | [], _ => true
  | _ :: _, [] => false
  | a :: as, b :: bs => a == b && isPrefixListB as bs

/-- Boolean contiguous-substring test on character lists. -/
def isSubListB (pat : List Char) : List Char → Bool
  | [] => isPrefixListB pat []
  | b :: bs => isPrefixListB pat (b :: bs) || isSubListB pat bs

/-- Decidable rendering of the claim that the full generated service-variable
script is a single-line assignment embedding the seven values as literals. -/
def scriptSingleLineCheck (llm : LLM) (am : Option Dict) : Bool :=
  let s := createBentoScript llm am
  (!s.data.contains '\n')
    && isSubListB (pyQuote llm.model_id).data s.data
    && isSubListB (pyQuote llm.tag).data s.data
    && isSubListB (jsonDumps am).data s.data
    && isSubListB (pyQuote llm.config.serialisation).data s.data
    && isSubListB (pyStrBool llm.trust_remote_code).data s.data
    && isSubListB (pyReprOptInt llm.max_model_len).data s.data
    && isSubListB llm.gpu_memory_utilization.data s.data

/-- Decidable rendering of the claim that the bento labels map each of the
eight fixed keys to its documented value. -/
def labelsClaimCheck (versions : String → String) (llm : LLM) (am : Option Dict) : Bool :=
  let L := createBentoLabels versions llm am
  (dget "_type" L == some llm.llm_type) && (dget "_framework" L == some llm.backend)
    && (dget "start_name" L == some llm.config.start_name)
    && (dget "base_name_or_path" L == some llm.model_id)
    && (dget "bundler" L == some "openllm.bundle")
    && (dget "openllm_version" L == some (versions "openllm"))
    && (dget "openllm_core_version" L == some (versions "openllm-core"))
    && (dget "openllm_client_version" L == some (versions "openllm-client"))

/-! Dictionary lemmas. -/

theorem dget_dictSet_self (k v : String) (d : Dict) : dget k (dictSet k v d) = some v := by
  induction d with
  | nil => simp [dictSet, dget]
  | cons kv rest ih =>
    by_cases hkv : kv.1 = k
    · simp [dictSet, hkv, dget]
    · simp [dictSet, hkv, dget, ih]

theorem dget_dictSet_ne (k k' v : String) (d : Dict) (h : k ≠ k') :
    dget k (dictSet k' v d) = dget k d := by
  induction d with
  | nil => simp only [dictSet, dget, if_neg (Ne.symm h)]
  | cons kv rest ih =>
    simp only [dictSet]
    by_cases hkv : kv.1 = k'
    · simp only [if_pos hkv, dget, if_neg (Ne.symm h)]
      rw [if_neg (by rw [hkv]; exact Ne.symm h)]
    · simp only [if_neg hkv, dget]
      by_cases hk : kv.1 = k
      · simp only [if_pos hk]
      · simp only [if_neg hk, ih]

theorem dget_dictPop_self (k : String) (d : Dict) : dget k (dictPop k d) = none := by
  induction d with
  | nil => rfl
  | cons kv rest ih =>
    simp only [dictPop]
    by_cases hkv : kv.1 = k
    · simp only [if_pos hkv, ih]
    · simp only [if_neg hkv, dget, ih]

theorem dictUpdate_cons (d : Dict) (kv : String × String) (kvs : Dict) :
    dictUpdate d (kv :: kvs) = dictUpdate (dictSet kv.1 kv.2 d) kvs := rfl

theorem dget_dictUpdate_not_mem (kvs : Dict) :
    ∀ (d : Dict) (k : String), (∀ kv ∈ kvs, kv.1 ≠ k) →
      dget k (dictUpdate d kvs) = dget k d := by
  induction kvs with
  | nil => intro d k _; rfl
  | cons p ps ih =>
    intro d k h
    rw [dictUpdate_cons, ih _ k (fun kv hm => h kv (List.mem_cons_of_mem _ hm)),
      dget_dictSet_ne _ _ _ _ (Ne.symm (h p (List.mem_cons_self _ _)))]

theorem dget_dictUpdate_mem (kvs : Dict) :
    ∀ (d : Dict) (k v : String), (kvs.map Prod.fst).Nodup → (k, v) ∈ kvs →
      dget k (dictUpdate d kvs) = some v := by
  induction kvs with
  | nil => intro d k v _ hm; cases hm
  | cons p ps ih =>
    intro d k v hnd hm
    have hnd2 : (p.1 :: ps.map Prod.fst).Nodup := by simpa using hnd
    rcases List.nodup_cons.mp hnd2 with ⟨hhead, htail⟩
    rw [dictUpdate_cons]
    rcases List.mem_cons.mp hm with heq | hmem
    · have hk : p.1 = k := by rw [← heq]
      have hv : p.2 = v := by rw [← heq]
      have hnot : ∀ kv ∈ ps, kv.1 ≠ k := by
        intro kv hkv hc
        exact hhead (by rw [hk, ← hc]; exact List.mem_map_of_mem _ hkv)
      rw [dget_dictUpdate_not_mem ps _ k hnot, ← hk, ← hv]
      exact dget_dictSet_self _ _ _
    · exact ih _ k v htail hmem

/-! String lemmas. -/

theorem noNL_append (a b : String) (ha : noNL a) (hb : noNL b) : noNL (a ++ b) := by
  simp only [noNL, String.data_append, List.mem_append, not_or] at *
  exact ⟨ha, hb⟩

theorem embedsLiteral_append_left (a b lit : String) (h : embedsLiteral b lit) :
    embedsLiteral (a ++ b) lit := by
  obtain ⟨pre, post, hp⟩ := h
  exact ⟨a.data ++ pre, post, by simp [hp, List.append_assoc]⟩

theorem pyStrBool_noNL (b : Bool) : noNL (pyStrBool b) := by cases b <;> decide

/-- The instantiated service-vars line contains no newline when none of the
rendered values does. -/
theorem serviceVarsLine_noNL (a b c d e f g : String) (ha : noNL a) (hb : noNL b)
    (hc : noNL c) (hd : noNL d) (he : noNL e) (hf : noNL f) (hg : noNL g) :
    noNL (serviceVarsLine a b c d e f g) := by
  unfold serviceVarsLine pyQuote
  repeat' apply noNL_append
  all_goals first | assumption | decide

/-- The instantiated service-vars line embeds each of the seven rendered
values verbatim, the string-typed ones in their quoting. -/
theorem serviceVarsLine_embeds (a b c d e f g : String) :
    embedsLiteral (serviceVarsLine a b c d e f g) (pyQuote a)
    ∧ embedsLiteral (serviceVarsLine a b c d e f g) (pyQuote b)
    ∧ embedsLiteral (serviceVarsLine a b c d e f g) c
    ∧ embedsLiteral (serviceVarsLine a b c d e f g) (pyQuote d)
    ∧ embedsLiteral (serviceVarsLine a b c d e f g) e
    ∧ embedsLiteral (serviceVarsLine a b c d e f g) f
    ∧ embedsLiteral (serviceVarsLine a b c d e f g) g := by
  refine ⟨⟨svHead.data, ("," ++ pyQuote b ++ svLoads ++ c ++ svLoadsEnd ++ pyQuote d
      ++ "," ++ e ++ "," ++ f ++ "," ++ g).data, ?_⟩,
    ⟨(svHead ++ pyQuote a ++ ",").data, (svLoads ++ c ++ svLoadsEnd ++ pyQuote d
      ++ "," ++ e ++ "," ++ f ++ "," ++ g).data, ?_⟩,
    ⟨(svHead ++ pyQuote a ++ "," ++ pyQuote b ++ svLoads).data, (svLoadsEnd ++ pyQuote d
      ++ "," ++ e ++ "," ++ f ++ "," ++ g).data, ?_⟩,
    ⟨(svHead ++ pyQuote a ++ "," ++ pyQuote b ++ svLoads ++ c ++ svLoadsEnd).data,
      ("," ++ e ++ "," ++ f ++ "," ++ g).data, ?_⟩,
    ⟨(svHead ++ pyQuote a ++ "," ++ pyQuote b ++ svLoads ++ c ++ svLoadsEnd ++ pyQuote d
      ++ ",").data, ("," ++ f ++ "," ++ g).data, ?_⟩,
    ⟨(svHead ++ pyQuote a ++ "," ++ pyQuote b ++ svLoads ++ c ++ svLoadsEnd ++ pyQuote d
      ++ "," ++ e ++ ",").data, ("," ++ g).data, ?_⟩,
    ⟨(svHead ++ pyQuote a ++ "," ++ pyQuote b ++ svLoads ++ c ++ svLoadsEnd ++ pyQuote d
      ++ "," ++ e ++ "," ++ f ++ ",").data, ([] : List Char), ?_⟩⟩ <;>
    simp [serviceVarsLine, pyQuote, List.append_assoc]

/-! Shared helper lemmas about the embedded operations. -/

theorem build_editable_dev_unset (env : Env) (path package : String)
    (h : env.envVars OPENLLM_DEV_BUILD = none) :
    build_editable env path package = .ok none := by
  simp [build_editable, check_bool_env, h]

theorem build_editable_writes_dev_unset (env : Env) (path package : String)
    (h : env.envVars OPENLLM_DEV_BUILD = none) :
    build_editable_writes env path package = [] := by
  simp [build_editable_writes, check_bool_env, h]

theorem create_bento_ok_fields (env : Env) (environ : Dict) (releaseVersion : String)
    (versions : String → String) (bento_tag : BentoTag) (llmFsRoot : String) (llm : LLM)
    (dockerfile_template : Option String) (adapter_map : Option Dict)
    (extra_dependencies : Option (List String)) (serialisation : Option String)
    (r : CreateBentoResult)
    (h : create_bento env environ releaseVersion versions bento_tag llmFsRoot llm
        dockerfile_template adapter_map extra_dependencies serialisation = .ok r) :
    r.script = createBentoScript llm adapter_map
    ∧ r.labels = createBentoLabels versions llm adapter_map
    ∧ r.dockerSerialisationArg = firstNotNone serialisation llm.config.serialisation := by
  unfold create_bento at h
  cases hp : construct_python_options env releaseVersion llm llmFsRoot extra_dependencies
      adapter_map with
  | error e => rw [hp] at h; simp at h
  | ok py =>
    rw [hp] at h
    dsimp only at h
    cases hd : construct_docker_options environ dockerfile_template
        (firstNotNone serialisation llm.config.serialisation) with
    | none => rw [hd] at h; simp at h
    | some dk =>
      rw [hd] at h
      dsimp only at h
      simp only [Except.ok.injEq] at h
      subst h
      exact ⟨rfl, rfl, rfl⟩

/-! Claim theorems. -/

/-- C2: for every path and package argument, if the development-mode
environment flag OPENLLM_DEV_BUILD is not set, `build_editable` returns
`None` and performs no filesystem writes, leaving the target path
unchanged. -/
theorem build_editable_noop_when_dev_unset (env : Env) (path package : String)
    (fs : List String) (h : env.envVars OPENLLM_DEV_BUILD = none) :
    build_editable env path package = .ok none
    ∧ build_editable_writes env path package = []
    ∧ applyWrites fs (build_editable_writes env path package) = fs := by
  refine ⟨build_editable_dev_unset env path package h, build_editable_writes_dev_unset env path package h, ?_⟩
  rw [build_editable_writes_dev_unset env path package h]
  simp [applyWrites]

/-- Witness for C2 at a concrete environment, path, package and directory
listing. -/
theorem build_editable_noop_when_dev_unset_witness :
    build_editable envNoDev "/tmp/llm" "openllm" = .ok none
    ∧ build_editable_writes envNoDev "/tmp/llm" "openllm" = []
    ∧ applyWrites ["service.py"] (build_editable_writes envNoDev "/tmp/llm" "openllm")
        = ["service.py"] :=
  build_editable_noop_when_dev_unset envNoDev "/tmp/llm" "openllm" ["service.py"] rfl

/-- C6: when the development-mode flag is set, `build_editable` raises in
exactly two cases, an unresolvable source location (where Python treats both
`None` and the empty string as missing) and a missing `pyproject.toml`; in
every other case it returns the built wheel path. -/
theorem build_editable_fatal_cases (env : Env) (path package : String)
    (h : check_bool_env env.envVars OPENLLM_DEV_BUILD false = true) :
    ((env.srcLoc package = none ∨ env.srcLoc package = some "") →
        build_editable env path package = .error srcLocError)
    ∧ (∀ loc, env.srcLoc package = some loc → loc ≠ "" →
        env.isFile (pyprojectPathOf loc) = false →
        build_editable env path package = .error pyprojectError)
    ∧ (∀ loc, env.srcLoc package = some loc → loc ≠ "" →
        env.isFile (pyprojectPathOf loc) = true →
        build_editable env path package =
          .ok (some (env.buildWheel (parentDir (pyprojectPathOf loc)) path)))
    ∧ ((∃ e, build_editable env path package = .error e) ↔
        (env.srcLoc package = none ∨ env.srcLoc package = some ""
          ∨ ∃ loc, env.srcLoc package = some loc ∧ loc ≠ ""
              ∧ env.isFile (pyprojectPathOf loc) = false)) := by
  refine ⟨?_, ?_, ?_, ?_⟩
  · rintro (hs | hs) <;> simp [build_editable, h, hs]
  · intro loc hs hne hf
    simp [build_editable, h, hs, hne, hf]
  · intro loc hs hne hf
    simp [build_editable, h, hs, hne, hf]
  · constructor
    · rintro ⟨e, he⟩
      cases hs : env.srcLoc package with
      | none => exact Or.inl rfl
      | some loc =>
        by_cases hne : loc = ""
        · subst hne; exact Or.inr (Or.inl rfl)
        · refine Or.inr (Or.inr ⟨loc, rfl, hne, ?_⟩)
          by_cases hf : env.isFile (pyprojectPathOf loc) = true
          · rw [build_editable] at he
            simp [h, hs, hne, hf] at he
          · simpa using hf
    · rintro (hs | hs | ⟨loc, hs, hne, hf⟩)
      · exact ⟨srcLocError, by simp [build_editable, h, hs]⟩
      · exact ⟨srcLocError, by simp [build_editable, h, hs]⟩
      · exact ⟨pyprojectError, by simp [build_editable, h, hs, hne, hf]⟩

/-- Witness for C6: a set development flag, a resolvable source location and
a present build descriptor produce the built wheel path. -/
theorem build_editable_fatal_cases_witness :
    build_editable envDev "/tmp/out" "openllm" =
      .ok (some (envDev.buildWheel (parentDir (pyprojectPathOf "/repo/src/openllm")) "/tmp/out")) :=
  (build_editable_fatal_cases envDev "/tmp/out" "openllm" (by decide)).2.2.1
    "/repo/src/openllm" rfl (by decide) rfl

/-- C10: if the development flag is unset the returned `PythonOptions` has no
wheels; and in general `construct_python_options` lists wheels only when all
three editable builds returned a truthy wheel path. -/
theorem construct_python_options_wheels_gating (env : Env) (rv : String) (llm : LLM)
    (root : String) (eo : Option (List String)) (am : Option Dict) :
    (env.envVars OPENLLM_DEV_BUILD = none →
        construct_python_options env rv llm root eo am =
          .ok { packages := constructPythonPackages rv llm.config.requirements eo am,
                wheels := none, lock_packages := false })
    ∧ (∀ opts, construct_python_options env rv llm root eo am = .ok opts →
        opts.wheels ≠ none →
        ∀ p ∈ ["openllm_core", "openllm_client", "openllm"],
          ∃ r, build_editable env root p = .ok r ∧ pyTruthyOptStr r = true) := by
  constructor
  · intro h
    simp [construct_python_options, build_editable_dev_unset _ _ _ h, pyTruthyOptStr]
  · intro opts hok hw p hp
    unfold construct_python_options at hok
    cases h1 : build_editable env root "openllm_core" with
    | error e => rw [h1] at hok; simp at hok
    | ok w1 =>
      rw [h1] at hok
      cases h2 : build_editable env root "openllm_client" with
      | error e => rw [h2] at hok; simp at hok
      | ok w2 =>
        rw [h2] at hok
        cases h3 : build_editable env root "openllm" with
        | error e => rw [h3] at hok; simp at hok
        | ok w3 =>
          rw [h3] at hok
          dsimp only at hok
          simp only [Except.ok.injEq] at hok
          subst hok
          by_cases hall : ([w1, w2, w3].all pyTruthyOptStr) = true
          · simp only [List.all_cons, List.all_nil, Bool.and_eq_true, Bool.and_true] at hall
            simp only [List.mem_cons, List.mem_singleton] at hp
            rcases hp with rfl | rfl | rfl | hcontra
            · exact ⟨w1, h1, hall.1⟩
            · exact ⟨w2, h2, hall.2.1⟩
            · exact ⟨w3, h3, hall.2.2⟩
            · cases hcontra
          · exact absurd (by simp [hall]) hw

/-- Witness for C10 at a concrete environment with the flag unset. -/
theorem construct_python_options_wheels_gating_witness :
    construct_python_options envNoDev "0.4.41" llmEx "/tmp/llm" none none =
      .ok { packages := constructPythonPackages "0.4.41" llmEx.config.requirements none none,
            wheels := none, lock_packages := false } :=
  (construct_python_options_wheels_gating envNoDev "0.4.41" llmEx "/tmp/llm" none none).1 rfl

/-- C3: the package list of `construct_python_options` always contains the
three core requirements, and it grows monotonically (as a sublist) when an
adapter map is added or extra dependencies are added or extended. -/
theorem construct_python_options_core_monotone (env : Env) (rv : String) (llm : LLM)
    (root : String) (reqs : Option (List String)) (ed ed2 : List String)
    (am am2 : Option Dict) (eo : Option (List String)) :
    ("scipy" ∈ constructPythonPackages rv reqs eo am
      ∧ "bentoml[tracing]>=1.1.11,<1.2" ∈ constructPythonPackages rv reqs eo am
      ∧ ("openllm[vllm]>=" ++ rv) ∈ constructPythonPackages rv reqs eo am)
    ∧ (constructPythonPackages rv reqs eo none).Sublist
        (constructPythonPackages rv reqs eo (some (am.getD [])))
    ∧ (constructPythonPackages rv reqs none am2).Sublist
        (constructPythonPackages rv reqs (some ed) am2)
    ∧ (constructPythonPackages rv reqs (some ed) am2).Sublist
        (constructPythonPackages rv reqs (some (ed ++ ed2)) am2)
    ∧ (∀ opts, construct_python_options env rv llm root eo am = .ok opts →
        opts.packages = constructPythonPackages rv llm.config.requirements eo am) := by
  refine ⟨⟨?_, ?_, ?_⟩, ?_, ?_, ?_, ?_⟩
  · simp [constructPythonPackages]
  · simp [constructPythonPackages]
  · simp [constructPythonPackages]
  · exact (((List.Sublist.refl _).append (List.nil_sublist _)).append
      (List.Sublist.refl _)).append (List.Sublist.refl _)
  · exact (((List.Sublist.refl _).append (List.Sublist.refl _)).append
      (List.nil_sublist _)).append (List.Sublist.refl _)
  · simp only [constructPythonPackages, List.map_append]
    exact (((List.Sublist.refl _).append (List.Sublist.refl _)).append
      (List.sublist_append_left _ _)).append (List.Sublist.refl _)
  · intro opts hok
    unfold construct_python_options at hok
    cases h1 : build_editable env root "openllm_core" with
    | error e => rw [h1] at hok; simp at hok
    | ok w1 =>
      rw [h1] at hok
      cases h2 : build_editable env root "openllm_client" with
      | error e => rw [h2] at hok; simp at hok
      | ok w2 =>
        rw [h2] at hok
        cases h3 : build_editable env root "openllm" with
        | error e => rw [h3] at hok; simp at hok
        | ok w3 =>
          rw [h3] at hok
          dsimp only at hok
          simp only [Except.ok.injEq] at hok
          subst hok
          rfl

/-- Witness for C3: the package equation holds on a concrete successful run. -/
theorem construct_python_options_core_monotone_witness :
    (PythonOptions.mk (constructPythonPackages "0.4.41" llmEx.config.requirements none none)
        none false).packages
      = constructPythonPackages "0.4.41" llmEx.config.requirements none none :=
  (construct_python_options_core_monotone envNoDev "0.4.41" llmEx "/tmp/llm"
    llmEx.config.requirements [] [] none none none).2.2.2.2 _ rfl

/-- C4: whenever `construct_docker_options` returns, its environment contains
no BENTOML_HOME entry and pins NVIDIA_DRIVER_CAPABILITIES to
`compute,utility`. -/
theorem construct_docker_options_env_invariants (environ : Dict) (dt : Option String)
    (ser : String) (opts : DockerOptions)
    (h : construct_docker_options environ dt ser = some opts) :
    dget "BENTOML_HOME" opts.env = none
    ∧ dget "NVIDIA_DRIVER_CAPABILITIES" opts.env = some "compute,utility" := by
  unfold construct_docker_options constructDockerEnv at h
  cases hc : dget "OPENLLM_CONFIG" environ with
  | none => rw [hc] at h; simp at h
  | some cfg =>
    rw [hc] at h
    dsimp only [Option.map] at h
    simp only [Option.some.injEq] at h
    subst h
    constructor
    · rw [show (DockerOptions.mk "3.11"
          (dictSet "NVIDIA_DRIVER_CAPABILITIES" "compute,utility"
            (dictPop "BENTOML_HOME" (dictSet "OPENLLM_CONFIG" (pyQuote cfg) environ))) dt).env
          = dictSet "NVIDIA_DRIVER_CAPABILITIES" "compute,utility"
            (dictPop "BENTOML_HOME" (dictSet "OPENLLM_CONFIG" (pyQuote cfg) environ)) from rfl,
        dget_dictSet_ne _ _ _ _ (by decide)]
      exact dget_dictPop_self _ _
    · exact dget_dictSet_self _ _ _

/-- Witness for C4 at a concrete `process_environ` output. -/
theorem construct_docker_options_env_invariants_witness :
    dget "BENTOML_HOME"
        (dictSet "NVIDIA_DRIVER_CAPABILITIES" "compute,utility"
          (dictPop "BENTOML_HOME" (dictSet "OPENLLM_CONFIG" (pyQuote "\x7b\x7d") environEx)))
      = none
    ∧ dget "NVIDIA_DRIVER_CAPABILITIES"
        (dictSet "NVIDIA_DRIVER_CAPABILITIES" "compute,utility"
          (dictPop "BENTOML_HOME" (dictSet "OPENLLM_CONFIG" (pyQuote "\x7b\x7d") environEx)))
      = some "compute,utility" :=
  construct_docker_options_env_invariants environEx none "safetensors"
    { python_version := "3.11"
      env := dictSet "NVIDIA_DRIVER_CAPABILITIES" "compute,utility"
        (dictPop "BENTOML_HOME" (dictSet "OPENLLM_CONFIG" (pyQuote "\x7b\x7d") environEx))
      dockerfile_template := none } rfl

/-- C8: the falcon lazy import structure always exposes the three
configuration entries, and exposes the modeling entry Falcon exactly when
the optional torch dependency is available. -/
theorem falcon_import_structure_dispatch (t : Bool) :
    exposesEntry (falconImportStructure t) "FalconConfig" = true
    ∧ exposesEntry (falconImportStructure t) "START_FALCON_COMMAND_DOCSTRING" = true
    ∧ exposesEntry (falconImportStructure t) "DEFAULT_PROMPT_TEMPLATE" = true
    ∧ (exposesEntry (falconImportStructure t) "Falcon" = true ↔ t = true) := by
  cases t <;> exact (by decide)

/-- C1 counterexample: at a concrete invocation the script written to the
staging filesystem is not a single-line assignment statement, because the
generated header comment lines precede the assignment. -/
theorem create_bento_script_not_single_line :
    scriptSingleLineCheck llmEx none = false := by decide

/-- C1 (amended): the script written to the staging filesystem is the two
generated header comment lines followed by the service-vars assignment; the
assignment part is a single line whenever the rendered values contain no
newline, and the script embeds the seven values as literals. -/
theorem create_bento_script_shape (llm : LLM) (am : Option Dict)
    (h1 : noNL llm.model_id) (h2 : noNL llm.tag) (h3 : noNL (jsonDumps am))
    (h4 : noNL llm.config.serialisation) (h5 : noNL (pyReprOptInt llm.max_model_len))
    (h6 : noNL llm.gpu_memory_utilization) :
    createBentoScript llm am =
      scriptHeader llm.model_id ++ serviceVarsLine llm.model_id llm.tag (jsonDumps am)
        llm.config.serialisation (pyStrBool llm.trust_remote_code)
        (pyReprOptInt llm.max_model_len) llm.gpu_memory_utilization
    ∧ noNL (serviceVarsLine llm.model_id llm.tag (jsonDumps am) llm.config.serialisation
        (pyStrBool llm.trust_remote_code) (pyReprOptInt llm.max_model_len)
        llm.gpu_memory_utilization)
    ∧ embedsLiteral (createBentoScript llm am) (pyQuote llm.model_id)
    ∧ embedsLiteral (createBentoScript llm am) (pyQuote llm.tag)
    ∧ embedsLiteral (createBentoScript llm am) (jsonDumps am)
    ∧ embedsLiteral (createBentoScript llm am) (pyQuote llm.config.serialisation)
    ∧ embedsLiteral (createBentoScript llm am) (pyStrBool llm.trust_remote_code)
    ∧ embedsLiteral (createBentoScript llm am) (pyReprOptInt llm.max_model_len)
    ∧ embedsLiteral (createBentoScript llm am) llm.gpu_memory_utilization := by
  have hv := serviceVarsLine_embeds llm.model_id llm.tag (jsonDumps am)
    llm.config.serialisation (pyStrBool llm.trust_remote_code)
    (pyReprOptInt llm.max_model_len) llm.gpu_memory_utilization
  exact ⟨rfl,
    serviceVarsLine_noNL _ _ _ _ _ _ _ h1 h2 h3 h4 (pyStrBool_noNL _) h5 h6,
    embedsLiteral_append_left _ _ _ hv.1,
    embedsLiteral_append_left _ _ _ hv.2.1,
    embedsLiteral_append_left _ _ _ hv.2.2.1,
    embedsLiteral_append_left _ _ _ hv.2.2.2.1,
    embedsLiteral_append_left _ _ _ hv.2.2.2.2.1,
    embedsLiteral_append_left _ _ _ hv.2.2.2.2.2.1,
    embedsLiteral_append_left _ _ _ hv.2.2.2.2.2.2⟩

/-- Witness for the amended C1 at a concrete model and adapter map. -/
theorem create_bento_script_shape_witness :
    noNL (serviceVarsLine llmEx.model_id llmEx.tag
      (jsonDumps (some [("adapter1", "/tmp/adapter1")])) llmEx.config.serialisation
      (pyStrBool llmEx.trust_remote_code) (pyReprOptInt llmEx.max_model_len)
      llmEx.gpu_memory_utilization) :=
  (create_bento_script_shape llmEx (some [("adapter1", "/tmp/adapter1")])
    (by decide) (by decide) (by decide) (by decide) (by decide) (by decide)).2.1

/-- C5: the generated service-variable script is a deterministic function of
the model identity (model id, tag, serialisation mode, trust flag, max model
length, gpu memory utilization) and the adapter map; any successful
`create_bento` invocation writes exactly that script. -/
theorem create_bento_script_deterministic (p q : LLM) (am : Option Dict)
    (h1 : p.model_id = q.model_id) (h2 : p.tag = q.tag)
    (h3 : p.config.serialisation = q.config.serialisation)
    (h4 : p.trust_remote_code = q.trust_remote_code)
    (h5 : p.max_model_len = q.max_model_len)
    (h6 : p.gpu_memory_utilization = q.gpu_memory_utilization) :
    createBentoScript p am = createBentoScript q am
    ∧ (∀ (env : Env) (environ : Dict) (rv : String) (vers : String → String)
        (btag : BentoTag) (root : String) (dt : Option String)
        (ed : Option (List String)) (s : Option String) (r : CreateBentoResult),
        create_bento env environ rv vers btag root p dt am ed s = .ok r →
        r.script = createBentoScript p am) := by
  constructor
  · simp [createBentoScript, scriptHeader, serviceVarsLine, h1, h2, h3, h4, h5, h6]
  · intro env environ rv vers btag root dt ed s r h
    exact (create_bento_ok_fields env environ rv vers btag root p dt am ed s r h).1

/-- Witness for C5: two model objects sharing the bundle identity but
differing in type label and identifying parameters generate byte-identical
scripts. -/
theorem create_bento_script_deterministic_witness :
    createBentoScript llmEx none = createBentoScript llmEx2 none :=
  (create_bento_script_deterministic llmEx llmEx2 none rfl rfl rfl rfl rfl rfl).1

/-- Lookup of one of the fixed label pairs after the updates performed by
`create_bento`, provided the adapter map does not shadow the fixed keys. -/
theorem dget_createBentoLabels (versions : String → String) (llm : LLM) (am : Option Dict)
    (k v : String) (hmem : (k, v) ∈ createBentoLabelPairs versions llm)
    (hdisj : ∀ kv ∈ am.getD [], kv.1 ∉ (createBentoLabelPairs versions llm).map Prod.fst) :
    dget k (createBentoLabels versions llm am) = some v := by
  have hnd : ((createBentoLabelPairs versions llm).map Prod.fst).Nodup := by
    simp [createBentoLabelPairs]
  have hk : k ∈ (createBentoLabelPairs versions llm).map Prod.fst := by
    have := List.mem_map_of_mem Prod.fst hmem
    simpa using this
  unfold createBentoLabels
  cases htr : pyTruthyOptDict am
  · rw [if_neg (by simp [htr])]
    exact dget_dictUpdate_mem _ _ _ _ hnd hmem
  · rw [if_pos (by simp [htr])]
    rw [dget_dictUpdate_not_mem _ _ _ (fun kv hkv heq => (hdisj kv hkv) (heq ▸ hk))]
    exact dget_dictUpdate_mem _ _ _ _ hnd hmem

/-- C7 counterexample: an adapter map whose adapter name collides with the
reserved key `bundler` overrides the bundler label, so the labels do not
always include `bundler` mapped to `openllm.bundle`. -/
theorem create_bento_labels_shadowed :
    labelsClaimCheck versionsEx llmEx (some [("bundler", "/adapters/custom")]) = false := by
  decide

/-- C7 (amended): the labels form a flat string-to-string mapping that
includes the type, framework, start name, base model path, bundler
identifier and the three per-package version stamps, provided the adapter
map (merged last when truthy) does not use one of these reserved keys. -/
theorem create_bento_labels_include_expected (versions : String → String) (llm : LLM)
    (am : Option Dict)
    (hdisj : ∀ kv ∈ am.getD [], kv.1 ∉ (createBentoLabelPairs versions llm).map Prod.fst) :
    dget "_type" (createBentoLabels versions llm am) = some llm.llm_type
    ∧ dget "_framework" (createBentoLabels versions llm am) = some llm.backend
    ∧ dget "start_name" (createBentoLabels versions llm am) = some llm.config.start_name
    ∧ dget "base_name_or_path" (createBentoLabels versions llm am) = some llm.model_id
    ∧ dget "bundler" (createBentoLabels versions llm am) = some "openllm.bundle"
    ∧ dget "openllm_version" (createBentoLabels versions llm am) = some (versions "openllm")
    ∧ dget "openllm_core_version" (createBentoLabels versions llm am)
        = some (versions "openllm-core")
    ∧ dget "openllm_client_version" (createBentoLabels versions llm am)
        = some (versions "openllm-client") :=
  ⟨dget_createBentoLabels versions llm am _ _ (by simp [createBentoLabelPairs]) hdisj,
   dget_createBentoLabels versions llm am _ _ (by simp [createBentoLabelPairs]) hdisj,
   dget_createBentoLabels versions llm am _ _ (by simp [createBentoLabelPairs]) hdisj,
   dget_createBentoLabels versions llm am _ _ (by simp [createBentoLabelPairs]) hdisj,
   dget_createBentoLabels versions llm am _ _ (by simp [createBentoLabelPairs]) hdisj,
   dget_createBentoLabels versions llm am _ _ (by simp [createBentoLabelPairs]) hdisj,
   dget_createBentoLabels versions llm am _ _ (by simp [createBentoLabelPairs]) hdisj,
   dget_createBentoLabels versions llm am _ _ (by simp [createBentoLabelPairs]) hdisj⟩

/-- Witness for the amended C7 at a concrete model with no adapter map. -/
theorem create_bento_labels_include_expected_witness :
    dget "bundler" (createBentoLabels versionsEx llmEx none) = some "openllm.bundle" :=
  (create_bento_labels_include_expected versionsEx llmEx none (by simp)).2.2.2.2.1

/-- C9: the serialization literal of the generated script is the
configuration serialisation of the model, and the resolved
`first_not_none` value only reaches the docker-options constructor: the
script of a successful invocation is independent of the serialisation
argument. -/
theorem create_bento_serialisation_flow (env : Env) (environ : Dict) (rv : String)
    (vers : String → String) (btag : BentoTag) (root : String) (llm : LLM)
    (dt : Option String) (am : Option Dict) (ed : Option (List String))
    (s₁ s₂ : Option String)
    (h : isOkB (create_bento env environ rv vers btag root llm dt am ed s₁) = true) :
    (create_bento env environ rv vers btag root llm dt am ed s₁).map (fun r => r.script)
      = .ok (createBentoScript llm am)
    ∧ (create_bento env environ rv vers btag root llm dt am ed s₁).map (fun r => r.script)
      = (create_bento env environ rv vers btag root llm dt am ed s₂).map (fun r => r.script)
    ∧ (create_bento env environ rv vers btag root llm dt am ed s₁).map
        (fun r => r.dockerSerialisationArg)
      = .ok (firstNotNone s₁ llm.config.serialisation)
    ∧ embedsLiteral (createBentoScript llm am) (pyQuote llm.config.serialisation) := by
  cases hr : create_bento env environ rv vers btag root llm dt am ed s₁ with
  | error e => rw [hr] at h; simp [isOkB] at h
  | ok r =>
    have hf := create_bento_ok_fields env environ rv vers btag root llm dt am ed s₁ r hr
    have hr₂ : create_bento env environ rv vers btag root llm dt am ed s₂ =
        .ok { r with dockerSerialisationArg := firstNotNone s₂ llm.config.serialisation } := by
      unfold create_bento at hr ⊢
      cases hp : construct_python_options env rv llm root ed am with
      | error e => rw [hp] at hr; simp at hr
      | ok py =>
        rw [hp] at hr
        dsimp only at hr ⊢
        have hds : construct_docker_options environ dt (firstNotNone s₂ llm.config.serialisation)
            = construct_docker_options environ dt (firstNotNone s₁ llm.config.serialisation) := rfl
        rw [hds]
        cases hd : construct_docker_options environ dt
            (firstNotNone s₁ llm.config.serialisation) with
        | none => rw [hd] at hr; simp at hr
        | some dk =>
          rw [hd] at hr
          dsimp only at hr
          simp only [Except.ok.injEq] at hr
          rw [← hr]
      -- the record for s₂ coincides with the s₁ record except the recorded argument
    refine ⟨?_, ?_, ?_, ?_⟩
    · simp [Except.map, hf.1]
    · rw [hr₂]; simp [Except.map, hf.1]
    · simp [Except.map, hf.2.2]
    · exact (serviceVarsLine_embeds llm.model_id llm.tag (jsonDumps am)
        llm.config.serialisation (pyStrBool llm.trust_remote_code)
        (pyReprOptInt llm.max_model_len) llm.gpu_memory_utilization).2.2.2.1
        |> embedsLiteral_append_left _ _ _

/-- Witness for C9: a concrete invocation with an explicit serialisation
argument produces the same script as one without it. -/
theorem create_bento_serialisation_flow_witness :
    (create_bento envNoDev environEx "0.4.41" versionsEx ⟨"opt-bento", "1"⟩ "/tmp/llm" llmEx
        none none none (some "legacy")).map (fun r => r.script)
      = (create_bento envNoDev environEx "0.4.41" versionsEx ⟨"opt-bento", "1"⟩ "/tmp/llm" llmEx
        none none none none).map (fun r => r.script) :=
  (create_bento_serialisation_flow envNoDev environEx "0.4.41" versionsEx ⟨"opt-bento", "1"⟩
    "/tmp/llm" llmEx none none none (some "legacy") none (by decide)).2.1

end OpenLLM
